import Mathlib

/-!
Shallow embedding of src/reservation-station.py (the data-acquisition core:
fetch_cuisine_reservations and fetch_available_reservations).

The network is modelled as an oracle env : Nat → Resp giving the response to
the k-th HTTP POST a worker issues (counting from 0).  This captures a
nondeterministic upstream: retried requests may receive different responses.
Python exceptions that the source leaves uncaught become Except.error values;
the normal returns of the source (always plain lists) become Except.ok.
Each worker run also records the number of HTTP calls it issued and the list
of backoff delays it slept, in order.
-/

namespace ReservationStation

/-- MAX_RETRIES = 3 (line 19). -/
def MAX_RETRIES : Nat := 3

/-- RETRY_DELAY = (2, 5) (line 20). -/
def RETRY_DELAY : Nat × Nat := (2, 5)

/-- CUISINES (lines 23-27): the fixed category list. -/
def CUISINES : List String :=
  ["American", "Chinese", "Cocktail Bar", "French", "Indian", "Italian",
   "Japanese", "Korean", "Mediterranean", "Mexican", "New American",
   "Seafood", "Steakhouse", "Sushi", "Thai"]

/-! ### Time parsing (datetime.strptime / strftime models) -/

def digitsVal (ds : List Char) : Nat :=
  ds.foldl (fun a c => a * 10 + (c.toNat - 48)) 0

def hyphenChar : Char := Char.ofNat 45
def colonChar : Char := Char.ofNat 58

/-- Consume one expected literal character (strptime literal). -/
def expectChar (c : Char) : List Char → Option (List Char)
  | x :: rest => if x == c then some rest else none
  | [] => none

/-- Consume one-or-more whitespace characters (strptime turns a literal
space in the format into a one-or-more whitespace match). -/
def expectWs : List Char → Option (List Char)
  | x :: rest => if x.isWhitespace then some (rest.dropWhile Char.isWhitespace) else none
  | [] => none

/-- Read a 1-or-2 digit number in the range lo..hi (the shape of the
strptime regexes for the numeric directives other than the year). -/
def parseNum2 (lo hi : Nat) (cs : List Char) : Option (Nat × List Char) :=
  let p := cs.span Char.isDigit
  if (p.1.length == 1 || p.1.length == 2) && lo ≤ digitsVal p.1 && digitsVal p.1 ≤ hi
  then some (digitsVal p.1, p.2) else none

def pad2 (n : Nat) : String :=
  if n < 10 then "0" ++ toString n else toString n

def pad4 (n : Nat) : String :=
  if n < 10 then "000" ++ toString n
  else if n < 100 then "00" ++ toString n
  else if n < 1000 then "0" ++ toString n
  else toString n

/-- Model of
datetime.strptime(target_time, "%I:%M %p").strftime("%H:%M") (line 51):
12-hour clock with AM/PM marker, converted to a 24-hour "HH:MM" string.
Returns none when strptime would raise ValueError. -/
def parseTime12 (s : String) : Option String := do
  let cs := s.toList
  let (h, r1) ← parseNum2 1 12 cs
  let r2 ← expectChar colonChar r1
  let (mi, r3) ← parseNum2 0 59 r2
  let r4 ← expectWs r3
  match r4 with
  | a :: m :: rest =>
    let al := a.toLower
    let ml := m.toLower
    if (al == Char.ofNat 97 || al == Char.ofNat 112) && ml == Char.ofNat 109 && rest.isEmpty
    then
      let pm := al == Char.ofNat 112
      let h24 := if pm then (if h == 12 then 12 else h + 12)
                 else (if h == 12 then 0 else h)
      some (pad2 h24 ++ ":" ++ pad2 mi)
    else none
  | _ => none

structure Timestamp where
  year : Nat
  month : Nat
  day : Nat
  hour : Nat
  minute : Nat
  second : Nat
deriving DecidableEq, Repr

def isLeap (y : Nat) : Bool :=
  (y % 4 == 0 && y % 100 != 0) || y % 400 == 0

def daysInMonth (y m : Nat) : Nat :=
  if m == 2 then (if isLeap y then 29 else 28)
  else if m == 4 || m == 6 || m == 9 || m == 11 then 30
  else 31

/-- Model of datetime.strptime(slot_start, "%Y-%m-%d %H:%M:%S") (line 115):
none when strptime (or the datetime constructor's day-of-month check)
would raise ValueError. -/
def parseTimestamp (s : String) : Option Timestamp := do
  let cs := s.toList
  let py := cs.span Char.isDigit
  if py.1.length == 4 && 1 ≤ digitsVal py.1 then
    let y := digitsVal py.1
    let r2 ← expectChar hyphenChar py.2
    let (m, r3) ← parseNum2 1 12 r2
    let r4 ← expectChar hyphenChar r3
    let (d, r5) ← parseNum2 1 31 r4
    let r6 ← expectWs r5
    let (hh, r7) ← parseNum2 0 23 r6
    let r8 ← expectChar colonChar r7
    let (mi, r9) ← parseNum2 0 59 r8
    let r10 ← expectChar colonChar r9
    let (ss, r11) ← parseNum2 0 59 r10
    if r11.isEmpty && d ≤ daysInMonth y m then
      some { year := y, month := m, day := d, hour := hh, minute := mi, second := ss }
    else none
  else none

/-- strftime("%Y-%m-%d") on the localized datetime (line 124);
NY_TZ.localize leaves the wall-clock fields unchanged. -/
def fmtDate (t : Timestamp) : String :=
  pad4 t.year ++ "-" ++ pad2 t.month ++ "-" ++ pad2 t.day

/-- strftime("%I:%M %p") on the localized datetime (line 125). -/
def fmtTime12 (t : Timestamp) : String :=
  let h12 := if t.hour % 12 == 0 then 12 else t.hour % 12
  let ampm := if t.hour < 12 then "AM" else "PM"
  pad2 h12 ++ ":" ++ pad2 t.minute ++ " " ++ ampm

/-! ### The upstream JSON model -/

/-- A JSON value read where the code expects a string: either an actual
string or something else (on which .strip() raises AttributeError). -/
inductive JStr where
  | str (s : String)
  | notStr
deriving DecidableEq, Repr

/-- Numeric-or-"N/A" value produced by the rating .get chains. -/
inductive NumOrNA where
  | num (n : Int)
  | na
deriving DecidableEq, Repr

structure Rating where
  average : Option Int
  count : Option Int
deriving DecidableEq, Repr

structure Geo where
  lat : Option Int
  lng : Option Int
deriving DecidableEq, Repr

/-- One availability slot; none models a missing dict key
(slot["date"]["start"], slot["config"]["type"]). -/
structure Slot where
  dateStart : Option String
  configType : Option String
deriving DecidableEq, Repr

/-- One venue hit (element of search.hits).  Option models key absence. -/
structure Hit where
  name : Option String
  neighborhood : Option JStr
  url_slug : Option String
  rating : Option Rating
  price_range_id : Option Nat
  cuisine : Option (List String)
  geoloc : Option Geo
  images : Option (List String)
  slots : Option (List Slot)
deriving DecidableEq, Repr

/-- The decoded JSON body shape the code reads: hasMeta and hasSearch model
the presence of the top-level "meta" and "search" keys; totalPages models
int(data["meta"].get("total_pages", 0)) with the default already applied;
hasHits models the presence of the "hits" key under "search"; slots on hits
model restaurant.get("availability", \x7b\x7d).get("slots", []) with both
defaults already applied. -/
structure ApiData where
  hasMeta : Bool
  totalPages : Nat
  hasSearch : Bool
  hasHits : Bool
  hits : List Hit
deriving DecidableEq, Repr

/-- The body of an HTTP response: either not valid JSON (response.json()
raises ValueError) or a decoded ApiData. -/
inductive Body where
  | badJson
  | json (d : ApiData)
deriving DecidableEq, Repr

/-- The outcome of one requests.post call: a network-level
RequestException, or a response with a status code and a body. -/
inductive Resp where
  | netErr
  | ok (status : Nat) (body : Body)
deriving DecidableEq, Repr

/-- Python exceptions that fetch_cuisine_reservations leaves uncaught
(its only handler is for requests.exceptions.RequestException). -/
inductive FetchErr where
  | keyError (field : String)
  | attributeError
  | indexError
  | valueError
deriving DecidableEq, Repr

/-! ### Record normalization (lines 98-132) -/

structure Record where
  venueName : String
  neighborhood : String
  rating : NumOrNA
  totalRatings : NumOrNA
  priceRange : String
  cuisineType : String
  date : String
  timeNYC : String
  tableSize : Nat
  diningType : String
  reservationLink : String
  latitude : Int
  longitude : Int
  iconImage : String
deriving DecidableEq, Repr

/-- restaurant[field]: raises KeyError when the key is absent. -/
def getKey {A : Type} (o : Option A) (field : String) : Except FetchErr A :=
  match o with
  | some v => Except.ok v
  | none => Except.error (FetchErr.keyError field)

/-- Python str.strip(): remove whitespace from both ends. -/
def pyStrip (s : String) : String :=
  String.mk (((s.toList.dropWhile Char.isWhitespace).reverse.dropWhile
    Char.isWhitespace).reverse)

/-- restaurant["neighborhood"].strip(): AttributeError on a non-string. -/
def stripAttr (v : JStr) : Except FetchErr String :=
  match v with
  | JStr.str s => Except.ok (pyStrip s)
  | JStr.notStr => Except.error FetchErr.attributeError

/-- restaurant.get("rating", \x7b\x7d).get("average", "N/A") (line 102). -/
def ratingAverage (h : Hit) : NumOrNA :=
  match h.rating with
  | none => NumOrNA.na
  | some r =>
    match r.average with
    | none => NumOrNA.na
    | some v => NumOrNA.num v

/-- restaurant.get("rating", \x7b\x7d).get("count", "N/A") (line 103). -/
def ratingCount (h : Hit) : NumOrNA :=
  match h.rating with
  | none => NumOrNA.na
  | some r =>
    match r.count with
    | none => NumOrNA.na
    | some v => NumOrNA.num v

def dollarChar : Char := Char.ofNat 36

/-- "Price Range": "$" * price_range (line 122). -/
def dollarRepeat (n : Nat) : String :=
  String.mk (List.replicate n dollarChar)

/-- icon image with placeholder fallback: the bare except around
restaurant["images"][0] (lines 109-112) catches both a missing key and an
empty list. -/
def iconImageOf (h : Hit) : String :=
  match h.images with
  | some (img :: _) => img
  | _ => "https://img.freepik.com/premium-vector/cartoon-orange_24381-186.jpg"

/-- The reservation link (line 128): venue slug + day + party size. -/
def reservationLinkFor (slug day : String) (party_size : Nat) : String :=
  s!"https://resy.com/cities/new-york-ny/venues/{slug}?date={day}&seats={party_size}"

def parseTsE (s : String) : Except FetchErr Timestamp :=
  match parseTimestamp s with
  | some t => Except.ok t
  | none => Except.error FetchErr.valueError

/-- Lines 98-132: extract the attributes of one hit and emit one Record per
availability slot.  Any missing required key, non-string neighborhood,
empty cuisine list or unparseable slot timestamp raises (Except.error). -/
def processHit (day : String) (party_size : Nat) (h : Hit) :
    Except FetchErr (List Record) := do
  let venue_name ← getKey h.name "name"
  let nb ← getKey h.neighborhood "neighborhood"
  let neighborhood ← stripAttr nb
  let slug ← getKey h.url_slug "url_slug"
  let rating := ratingAverage h
  let total_ratings := ratingCount h
  let price_range := h.price_range_id.getD 0
  let cuisine_type ←
    match h.cuisine.getD ["Unknown"] with
    | [] => Except.error FetchErr.indexError
    | c :: _ => Except.ok c
  let g ← getKey h.geoloc "_geoloc"
  let latitude ← getKey g.lat "lat"
  let longitude ← getKey g.lng "lng"
  let icon_image := iconImageOf h
  (h.slots.getD []).foldlM
    (fun acc slot => do
      let start ← getKey slot.dateStart "start"
      let dt ← parseTsE start
      let ctype ← getKey slot.configType "type"
      Except.ok (acc ++ [{
        venueName := venue_name
        neighborhood := neighborhood
        rating := rating
        totalRatings := total_ratings
        priceRange := dollarRepeat price_range
        cuisineType := cuisine_type
        date := fmtDate dt
        timeNYC := fmtTime12 dt
        tableSize := party_size
        diningType := ctype
        reservationLink := reservationLinkFor slug day party_size
        latitude := latitude
        longitude := longitude
        iconImage := icon_image }]))
    []

/-- The hit loop of one page (line 98): appends each hit's records to the
accumulator; an exception from any hit aborts the whole category. -/
def processHits (day : String) (party_size : Nat) :
    List Hit → List Record → Except FetchErr (List Record)
  | [], acc => Except.ok acc
  | h :: hs, acc =>
    match processHit day party_size h with
    | Except.ok recs => processHits day party_size hs (acc ++ recs)
    | Except.error e => Except.error e

/-! ### The pagination loop (lines 85-132) -/

inductive PagesOut where
  | done (calls : Nat) (acc : List Record)
  | raised (calls : Nat) (e : FetchErr)
  | netFail (calls : Nat) (acc : List Record)
deriving DecidableEq, Repr

/-- The for-page loop: one POST per page.  A RequestException propagates to
the outer retry handler (netFail); a bad-JSON body or a body without
search/hits skips the page (continue); the status code of a page response
is never examined.  Uncaught hit-extraction exceptions become raised. -/
def processPages (env : Nat → Resp) (day : String) (party_size : Nat) :
    List Nat → Nat → List Record → PagesOut
  | [], k, acc => PagesOut.done k acc
  | _ :: rest, k, acc =>
    match env k with
    | Resp.netErr => PagesOut.netFail (k + 1) acc
    | Resp.ok _ body =>
      match body with
      | Body.badJson => processPages env day party_size rest (k + 1) acc
      | Body.json d =>
        if d.hasSearch && d.hasHits then
          match processHits day party_size d.hits acc with
          | Except.ok acc2 => processPages env day party_size rest (k + 1) acc2
          | Except.error e => PagesOut.raised (k + 1) e
        else processPages env day party_size rest (k + 1) acc

/-! ### The retry loop (lines 37-141) -/

/-- The backoff slept in the 502 branch (line 62):
min(RETRY_DELAY) + attempt * 1. -/
def delay502 (attempt : Nat) : Nat :=
  min RETRY_DELAY.1 RETRY_DELAY.2 + attempt * 1

/-- The backoff slept in the network-error branch (line 138):
min(RETRY_DELAY) + attempt * 1. -/
def delayNetErr (attempt : Nat) : Nat :=
  min RETRY_DELAY.1 RETRY_DELAY.2 + attempt * 1

instance {e a : Type} [DecidableEq e] [DecidableEq a] : DecidableEq (Except e a) := fun x y =>
  match x, y with
  | Except.error u, Except.error v =>
    if h : u = v then Decidable.isTrue (congrArg Except.error h)
    else Decidable.isFalse (fun hc => h (Except.error.inj hc))
  | Except.ok u, Except.ok v =>
    if h : u = v then Decidable.isTrue (congrArg Except.ok h)
    else Decidable.isFalse (fun hc => h (Except.ok.inj hc))
  | Except.error _, Except.ok _ => Decidable.isFalse (fun hc => Except.noConfusion hc)
  | Except.ok _, Except.error _ => Decidable.isFalse (fun hc => Except.noConfusion hc)

/-- The observable outcome of one worker run: its returned value (or the
uncaught exception), the number of HTTP calls issued and the backoff
delays slept, in order. -/
structure RunResult where
  result : Except FetchErr (List Record)
  calls : Nat
  sleeps : List Nat
deriving DecidableEq, Repr

/-- The attempt loop of fetch_cuisine_reservations (lines 37-141), with the
remaining-attempt count as fuel (fuel + attempt = MAX_RETRIES + 1).
Each iteration rebuilds the payload, re-parses the target time (an invalid
time returns [] before any network call), issues the page-1 request, and on
success runs the pagination loop.  A 502 on that initial request, or a
RequestException anywhere, sleeps and retries; the accumulated records are
never cleared across attempts. -/
def runAttempts (env : Nat → Resp) (cuisine day : String) (party_size : Nat)
    (target_time : Option String) :
    Nat → Nat → Nat → List Record → List Nat → RunResult
  | 0, _, k, _, sleeps => { result := Except.ok [], calls := k, sleeps := sleeps }
  | fuel + 1, attempt, k, acc, sleeps =>
    let timeOk : Option (Option String) :=
      match target_time with
      | none => some none
      | some t =>
        if t.isEmpty then some none
        else
          match parseTime12 t with
          | none => none
          | some tf => some (some tf)
    match timeOk with
    | none => { result := Except.ok [], calls := k, sleeps := sleeps }
    | some _time_filter =>
      match env k with
      | Resp.netErr =>
        runAttempts env cuisine day party_size target_time fuel (attempt + 1) (k + 1)
          acc (sleeps ++ [delayNetErr attempt])
      | Resp.ok status body =>
        if status == 502 then
          runAttempts env cuisine day party_size target_time fuel (attempt + 1) (k + 1)
            acc (sleeps ++ [delay502 attempt])
        else if status != 200 then
          { result := Except.ok [], calls := k + 1, sleeps := sleeps }
        else
          match body with
          | Body.badJson => { result := Except.ok [], calls := k + 1, sleeps := sleeps }
          | Body.json d =>
            if !(d.hasMeta && d.hasSearch) then
              { result := Except.ok [], calls := k + 1, sleeps := sleeps }
            else
              let total_pages := min 10 d.totalPages
              if total_pages == 0 then
                { result := Except.ok [], calls := k + 1, sleeps := sleeps }
              else
                match processPages env day party_size (List.range' 1 total_pages) (k + 1) acc with
                | PagesOut.done k2 acc2 =>
                  { result := Except.ok acc2, calls := k2, sleeps := sleeps }
                | PagesOut.raised k2 e =>
                  { result := Except.error e, calls := k2, sleeps := sleeps }
                | PagesOut.netFail k2 acc2 =>
                  runAttempts env cuisine day party_size target_time fuel (attempt + 1) k2
                    acc2 (sleeps ++ [delayNetErr attempt])

/-- fetch_cuisine_reservations (lines 32-141), run against the response
oracle env. -/
def fetch_cuisine_reservations (env : Nat → Resp) (cuisine day : String)
    (party_size : Nat) (target_time : Option String) : RunResult :=
  runAttempts env cuisine day party_size target_time MAX_RETRIES 1 0 [] []

/-! ### The coordinator (lines 143-163) -/

/-- The exception pandas raises from
pd.DataFrame([]).drop_duplicates(subset=['Reservation Link']): a KeyError
naming the missing column (an empty frame has no columns). -/
inductive CoordErr where
  | keyError (column : String)
deriving DecidableEq, Repr

/-- pandas drop_duplicates(subset=['Reservation Link']) on a non-empty
frame: keep the first row for each link value, preserving row order. -/
def dedupAux (seen : List String) : List Record → List Record
  | [] => []
  | r :: rs =>
    if r.reservationLink ∈ seen then dedupAux seen rs
    else r :: dedupAux (r.reservationLink :: seen) rs

def drop_duplicates_link (rs : List Record) : List Record :=
  dedupAux [] rs

/-- The fan-in loop (lines 153-158): each completed future's records extend
all_reservations; a future whose worker raised is caught and contributes
nothing.  order is the as_completed completion order — in the source, an
arbitrary permutation of CUISINES.  Also sums the HTTP calls issued. -/
def coordLoop (envs : String → Nat → Resp) (day : String) (party_size : Nat)
    (target_time : Option String) :
    List String → List Record → Nat → List Record × Nat
  | [], acc, k => (acc, k)
  | c :: cs, acc, k =>
    let r := fetch_cuisine_reservations (envs c) c day party_size target_time
    match r.result with
    | Except.ok recs => coordLoop envs day party_size target_time cs (acc ++ recs) (k + r.calls)
    | Except.error _ => coordLoop envs day party_size target_time cs acc (k + r.calls)

/-- The merged all_reservations list, in completion order. -/
def mergedRecords (envs : String → Nat → Resp) (order : List String)
    (day : String) (party_size : Nat) (target_time : Option String) : List Record :=
  (coordLoop envs day party_size target_time order [] 0).1

structure CoordResult where
  result : Except CoordErr (List Record)
  calls : Nat
deriving DecidableEq, Repr

/-- fetch_available_reservations (lines 143-163): merge all categories,
then pd.DataFrame(all_reservations).drop_duplicates(subset=['Reservation
Link']).  On an empty merge the frame has no columns and drop_duplicates
raises KeyError; otherwise the result is the keep-first deduplication. -/
def fetch_available_reservations (envs : String → Nat → Resp) (order : List String)
    (day : String) (party_size : Nat) (target_time : Option String) : CoordResult :=
  let p := coordLoop envs day party_size target_time order [] 0
  if p.1.isEmpty then
    { result := Except.error (CoordErr.keyError "Reservation Link"), calls := p.2 }
  else
    { result := Except.ok (drop_duplicates_link p.1), calls := p.2 }

/-! ### Concrete fixtures used by the theorems below -/

/-- A fully well-formed hit with one availability slot. -/
def carboneHit : Hit := {
  name := some "Carbone"
  neighborhood := some (JStr.str " Greenwich Village ")
  url_slug := some "carbone"
  rating := some { average := some 5, count := some 100 }
  price_range_id := some 4
  cuisine := some ["Italian"]
  geoloc := some { lat := some 40, lng := some (-74) }
  images := some ["img1"]
  slots := some [{ dateStart := some "2024-06-01 18:00:00", configType := some "Dining Room" }] }

/-- The record carboneHit normalizes to for day 2024-06-01, party size 2. -/
def carboneRecord : Record := {
  venueName := "Carbone"
  neighborhood := "Greenwich Village"
  rating := NumOrNA.num 5
  totalRatings := NumOrNA.num 100
  priceRange := "$$$$"
  cuisineType := "Italian"
  date := "2024-06-01"
  timeNYC := "06:00 PM"
  tableSize := 2
  diningType := "Dining Room"
  reservationLink := "https://resy.com/cities/new-york-ny/venues/carbone?date=2024-06-01&seats=2"
  latitude := 40
  longitude := -74
  iconImage := "img1" }

/-- The same venue surfaced by the Mediterranean category: same slug, hence
the same reservation link, but a different slot and category label. -/
def carboneMedHit : Hit := {
  name := some "Carbone"
  neighborhood := some (JStr.str "Greenwich Village")
  url_slug := some "carbone"
  rating := some { average := some 5, count := some 100 }
  price_range_id := some 4
  cuisine := some ["Mediterranean"]
  geoloc := some { lat := some 40, lng := some (-74) }
  images := some ["img1"]
  slots := some [{ dateStart := some "2024-06-01 19:00:00", configType := some "Patio" }] }

def carboneMedRecord : Record := {
  venueName := "Carbone"
  neighborhood := "Greenwich Village"
  rating := NumOrNA.num 5
  totalRatings := NumOrNA.num 100
  priceRange := "$$$$"
  cuisineType := "Mediterranean"
  date := "2024-06-01"
  timeNYC := "07:00 PM"
  tableSize := 2
  diningType := "Patio"
  reservationLink := "https://resy.com/cities/new-york-ny/venues/carbone?date=2024-06-01&seats=2"
  latitude := 40
  longitude := -74
  iconImage := "img1" }

/-- A distinct well-formed venue used as the surviving good category. -/
def somtumHit : Hit := {
  name := some "Somtum Der"
  neighborhood := some (JStr.str "East Village")
  url_slug := some "somtum-der"
  rating := none
  price_range_id := some 2
  cuisine := some ["Thai"]
  geoloc := some { lat := some 41, lng := some (-73) }
  images := none
  slots := some [{ dateStart := some "2024-06-01 19:30:00", configType := some "Indoor" }] }

def somtumRecord : Record := {
  venueName := "Somtum Der"
  neighborhood := "East Village"
  rating := NumOrNA.na
  totalRatings := NumOrNA.na
  priceRange := "$$"
  cuisineType := "Thai"
  date := "2024-06-01"
  timeNYC := "07:30 PM"
  tableSize := 2
  diningType := "Indoor"
  reservationLink := "https://resy.com/cities/new-york-ny/venues/somtum-der?date=2024-06-01&seats=2"
  latitude := 41
  longitude := -73
  iconImage := "https://img.freepik.com/premium-vector/cartoon-orange_24381-186.jpg" }

/-- A well-formed initial (page-1) response reporting tp total pages. -/
def initResp (tp : Nat) : Resp :=
  Resp.ok 200 (Body.json { hasMeta := true, totalPages := tp, hasSearch := true, hasHits := false, hits := [] })

/-- A well-formed page response carrying the given hits. -/
def pageResp (hs : List Hit) : Resp :=
  Resp.ok 200 (Body.json { hasMeta := false, totalPages := 0, hasSearch := true, hasHits := true, hits := hs })

/-- Every request answers with total_pages = 0: the legitimate
no-availability upstream. -/
def zeroEnv : Nat → Resp := fun _ => initResp 0

/-- Every request fails at the network level. -/
def netErrEnv : Nat → Resp := fun _ => Resp.netErr

/-- Every request answers HTTP 500 (a non-retryable status). -/
def err500Env : Nat → Resp := fun _ => Resp.ok 500 Body.badJson

/-- Two pages reported; page 1 delivers a record, the page-2 request hits a
network error on the first attempt; the second attempt succeeds throughout.
The goodHit record is accumulated twice. -/
def dupEnv : Nat → Resp := fun k =>
  if k == 0 then initResp 2
  else if k == 1 then pageResp [carboneHit]
  else if k == 2 then Resp.netErr
  else if k == 3 then initResp 2
  else if k == 4 then pageResp [carboneHit]
  else pageResp []

/-- Two pages reported; page 1 is fine (empty), the page-2 request answers
HTTP 502 with a non-JSON body. -/
def page502Env : Nat → Resp := fun k =>
  if k == 0 then initResp 2
  else if k == 1 then pageResp []
  else Resp.ok 502 Body.badJson

/-- Five pages reported; the first page contains the given (malformed) hit,
aborting the pagination loop at page 1. -/
def abortEnv (h : Hit) : Nat → Resp := fun k =>
  if k == 0 then initResp 5
  else pageResp [h]

/-- Two pages reported; page 1 delivers a good record, page 2 contains the
given (malformed) hit. -/
def badPage2Env (h : Hit) : Nat → Resp := fun k =>
  if k == 0 then initResp 2
  else if k == 1 then pageResp [carboneHit]
  else pageResp [h]

/-- One page with the carbone hit (used for the Italian category). -/
def italianEnv : Nat → Resp := fun k =>
  if k == 0 then initResp 1 else pageResp [carboneHit]

/-- One page with the same venue under the Mediterranean label. -/
def medEnv : Nat → Resp := fun k =>
  if k == 0 then initResp 1 else pageResp [carboneMedHit]

/-- One page with the Thai venue. -/
def thaiEnv : Nat → Resp := fun k =>
  if k == 0 then initResp 1 else pageResp [somtumHit]

/-- Per-category environments for the dedup scenario: Italian and
Mediterranean both surface the carbone venue; everything else is empty. -/
def dedupEnvs : String → Nat → Resp := fun c =>
  if c == "Italian" then italianEnv
  else if c == "Mediterranean" then medEnv
  else zeroEnv

/-- Per-category environments for the malformed-hit scenario: the Sushi
category raises mid-pagination, the Thai category succeeds. -/
def raiseEnvs (h : Hit) : String → Nat → Resp := fun c =>
  if c == "Sushi" then badPage2Env h
  else if c == "Thai" then thaiEnv
  else zeroEnv

/-- A hit whose required "name" key is absent. -/
def namelessHit : Hit := {
  name := none
  neighborhood := some (JStr.str "Soho")
  url_slug := some "ghost"
  rating := none
  price_range_id := none
  cuisine := none
  geoloc := some { lat := some 1, lng := some 2 }
  images := none
  slots := some [{ dateStart := some "2024-06-01 17:00:00", configType := some "Bar" }] }

/-! ### Helper lemmas -/

theorem except_bind_error {e a b : Type} (err : e) (f : a → Except e b) :
    (Except.error err >>= f) = Except.error err := rfl

theorem except_bind_ok {e a b : Type} (x : a) (f : a → Except e b) :
    ((Except.ok x : Except e a) >>= f) = f x := rfl

theorem delay502_eq (attempt : Nat) : delay502 attempt = 2 + attempt := by
  simp [delay502, RETRY_DELAY]

theorem delayNetErr_eq (attempt : Nat) : delayNetErr attempt = 2 + attempt := by
  simp [delayNetErr, RETRY_DELAY]

theorem dedupAux_link_not_seen :
    ∀ (rs : List Record) (seen : List String) (r : Record),
      r ∈ dedupAux seen rs → r.reservationLink ∉ seen := by
  intro rs
  induction rs with
  | nil => intro seen r h; simp [dedupAux] at h
  | cons x rest ih =>
    intro seen r h
    by_cases hx : x.reservationLink ∈ seen
    · rw [dedupAux, if_pos hx] at h
      exact ih seen r h
    · rw [dedupAux, if_neg hx] at h
      rcases List.mem_cons.mp h with h | h
      · subst h; exact hx
      · intro hs
        exact ih _ r h (List.mem_cons_of_mem _ hs)

theorem dedupAux_nodup :
    ∀ (rs : List Record) (seen : List String),
      ((dedupAux seen rs).map Record.reservationLink).Nodup := by
  intro rs
  induction rs with
  | nil => intro seen; simp [dedupAux]
  | cons x rest ih =>
    intro seen
    by_cases hx : x.reservationLink ∈ seen
    · rw [dedupAux, if_pos hx]; exact ih seen
    · rw [dedupAux, if_neg hx]
      refine List.nodup_cons.mpr ⟨?_, ih _⟩
      intro hmem
      rcases List.mem_map.mp hmem with ⟨r, hr, hlink⟩
      exact dedupAux_link_not_seen rest _ r hr (by rw [hlink]; exact List.mem_cons_self _ _)

theorem dedupAux_filter_of_seen :
    ∀ (rs : List Record) (seen : List String) (l : String), l ∈ seen →
      (dedupAux seen rs).filter (fun r => r.reservationLink == l) = [] := by
  intro rs
  induction rs with
  | nil => intro seen l _; simp [dedupAux]
  | cons x rest ih =>
    intro seen l hl
    by_cases hx : x.reservationLink ∈ seen
    · rw [dedupAux, if_pos hx]; exact ih seen l hl
    · rw [dedupAux, if_neg hx]
      have hne : (x.reservationLink == l) = false := by
        apply beq_eq_false_iff_ne.mpr
        intro he; rw [he] at hx; exact hx hl
      rw [List.filter_cons, hne]
      simp only [Bool.false_eq_true, if_false]
      exact ih _ l (List.mem_cons_of_mem _ hl)

theorem dedupAux_filter_len_one :
    ∀ (rs : List Record) (seen : List String) (l : String), l ∉ seen →
      l ∈ rs.map Record.reservationLink →
      ((dedupAux seen rs).filter (fun r => r.reservationLink == l)).length = 1 := by
  intro rs
  induction rs with
  | nil => intro seen l _ h; simp at h
  | cons x rest ih =>
    intro seen l hl hmem
    by_cases hx : x.reservationLink ∈ seen
    · rw [dedupAux, if_pos hx]
      have hxl : x.reservationLink ≠ l := by
        intro he; rw [he] at hx; exact hl hx
      have : l ∈ rest.map Record.reservationLink := by
        rcases List.mem_map.mp hmem with ⟨r, hr, hlink⟩
        rcases List.mem_cons.mp hr with h | h
        · exact absurd (by rw [h] at hlink; exact hlink) hxl
        · exact List.mem_map.mpr ⟨r, h, hlink⟩
      exact ih seen l hl this
    · rw [dedupAux, if_neg hx]
      by_cases hxl : x.reservationLink = l
      · rw [List.filter_cons]
        have hbeq : (x.reservationLink == l) = true := beq_iff_eq.mpr hxl
        rw [hbeq]
        simp only [if_true, List.length_cons]
        have : (dedupAux (x.reservationLink :: seen) rest).filter
            (fun r => r.reservationLink == l) = [] := by
          apply dedupAux_filter_of_seen
          rw [hxl]; exact List.mem_cons_self _ _
        rw [this]
        rfl
      · rw [List.filter_cons]
        have hbeq : (x.reservationLink == l) = false := beq_eq_false_iff_ne.mpr hxl
        rw [hbeq]
        simp only [Bool.false_eq_true, if_false]
        have hl2 : l ∉ x.reservationLink :: seen := by
          intro hcon
          rcases List.mem_cons.mp hcon with h | h
          · exact hxl h.symm
          · exact hl h
        have hmem2 : l ∈ rest.map Record.reservationLink := by
          rcases List.mem_map.mp hmem with ⟨r, hr, hlink⟩
          rcases List.mem_cons.mp hr with h | h
          · exact absurd (by rw [h] at hlink; exact hlink) hxl
          · exact List.mem_map.mpr ⟨r, h, hlink⟩
        exact ih _ l hl2 hmem2

theorem dedupAux_first_wins :
    ∀ (rs : List Record) (seen : List String) (r : Record),
      r ∈ dedupAux seen rs →
      rs.find? (fun x => x.reservationLink == r.reservationLink) = some r := by
  intro rs
  induction rs with
  | nil => intro seen r h; simp [dedupAux] at h
  | cons x rest ih =>
    intro seen r h
    by_cases hx : x.reservationLink ∈ seen
    · rw [dedupAux, if_pos hx] at h
      have hne : (x.reservationLink == r.reservationLink) = false := by
        apply beq_eq_false_iff_ne.mpr
        intro he
        exact dedupAux_link_not_seen rest seen r h (by rw [← he]; exact hx)
      rw [List.find?_cons_of_neg _ (by rw [hne]; exact Bool.false_ne_true)]
      exact ih seen r h
    · rw [dedupAux, if_neg hx] at h
      rcases List.mem_cons.mp h with h | h
      · subst h
        exact List.find?_cons_of_pos _ (beq_iff_eq.mpr rfl)
      · have hne : (x.reservationLink == r.reservationLink) = false := by
          apply beq_eq_false_iff_ne.mpr
          intro he
          exact dedupAux_link_not_seen rest _ r h
            (by rw [← he]; exact List.mem_cons_self _ _)
        rw [List.find?_cons_of_neg _ (by rw [hne]; exact Bool.false_ne_true)]
        exact ih _ r h

/-- Unfolding of the coordinator result through mergedRecords. -/
theorem fetch_available_result (envs : String → Nat → Resp) (order : List String)
    (day : String) (party_size : Nat) (target_time : Option String) :
    (fetch_available_reservations envs order day party_size target_time).result =
      if (mergedRecords envs order day party_size target_time).isEmpty
      then Except.error (CoordErr.keyError "Reservation Link")
      else Except.ok (drop_duplicates_link (mergedRecords envs order day party_size target_time)) := by
  unfold fetch_available_reservations mergedRecords
  by_cases h : (coordLoop envs day party_size target_time order [] 0).1.isEmpty <;> simp [h]

/-- Against the all-empty upstream, every worker run returns an empty list
(and raises nothing), whatever the target time. -/
theorem worker_zeroEnv_result (c day : String) (party_size : Nat) (tt : Option String) :
    (fetch_cuisine_reservations zeroEnv c day party_size tt).result = Except.ok [] := by
  cases tt with
  | none => rfl
  | some t =>
    show (runAttempts zeroEnv c day party_size (some t) 3 1 0 [] []).result = Except.ok []
    rw [runAttempts]
    cases he : t.isEmpty
    · cases hp : parseTime12 t <;> simp [he, hp, zeroEnv, initResp]
    · simp [he, zeroEnv, initResp]

/-- A non-empty target time that strptime rejects makes the worker return
an empty list before issuing any HTTP call and without sleeping. -/
theorem worker_invalid_time (env : Nat → Resp) (c day : String) (party_size : Nat)
    (t : String) (h1 : t.isEmpty = false) (h2 : parseTime12 t = none) :
    fetch_cuisine_reservations env c day party_size (some t) =
      { result := Except.ok [], calls := 0, sleeps := [] } := by
  show runAttempts env c day party_size (some t) 3 1 0 [] [] = _
  rw [runAttempts]
  simp [h1, h2]

theorem coordLoop_invalid_time (envs : String → Nat → Resp) (day : String)
    (party_size : Nat) (t : String) (h1 : t.isEmpty = false) (h2 : parseTime12 t = none) :
    ∀ (order : List String) (acc : List Record) (k : Nat),
      coordLoop envs day party_size (some t) order acc k = (acc, k) := by
  intro order
  induction order with
  | nil => intro acc k; rfl
  | cons c cs ih =>
    intro acc k
    rw [coordLoop]
    rw [worker_invalid_time (envs c) c day party_size t h1 h2]
    simpa using ih acc k

/-- A category whose worker raises contributes exactly what a category
returning no records contributes: nothing.  The coordinator result cannot
distinguish the two. -/
theorem coordLoop_update_raise (envs : String → Nat → Resp) (day : String)
    (party_size : Nat) (tt : Option String) (c : String) (e : FetchErr)
    (herr : (fetch_cuisine_reservations (envs c) c day party_size tt).result = Except.error e) :
    ∀ (order : List String) (acc : List Record) (k k2 : Nat),
      (coordLoop envs day party_size tt order acc k).1 =
      (coordLoop (Function.update envs c zeroEnv) day party_size tt order acc k2).1 := by
  intro order
  induction order with
  | nil => intro acc k k2; rfl
  | cons c2 cs ih =>
    intro acc k k2
    by_cases hc : c2 = c
    · subst hc
      rw [coordLoop, coordLoop, herr, Function.update_same,
        worker_zeroEnv_result c2 day party_size tt]
      simpa using ih acc _ _
    · rw [coordLoop, coordLoop, Function.update_noteq hc]
      cases hres : (fetch_cuisine_reservations (envs c2) c2 day party_size tt).result <;>
        simpa [hres] using ih _ _ _

/-- A hit lacking name, neighborhood, url_slug or _geoloc, or whose
neighborhood value is not a string. -/
def missingRequired (h : Hit) : Prop :=
  h.name = none ∨ h.neighborhood = none ∨ h.neighborhood = some JStr.notStr ∨
    h.url_slug = none ∨ h.geoloc = none

theorem processHit_missing (h : Hit) (hm : missingRequired h) (day : String)
    (party_size : Nat) : ∃ e, processHit day party_size h = Except.error e := by
  cases hn : h.name with
  | none =>
    exact ⟨FetchErr.keyError "name", by simp [processHit, getKey, hn, except_bind_error]⟩
  | some nm =>
    cases hb : h.neighborhood with
    | none =>
      exact ⟨FetchErr.keyError "neighborhood",
        by simp [processHit, getKey, hn, hb, except_bind_error, except_bind_ok]⟩
    | some jv =>
      cases jv with
      | notStr =>
        exact ⟨FetchErr.attributeError,
          by simp [processHit, getKey, stripAttr, hn, hb, except_bind_error, except_bind_ok]⟩
      | str s =>
        cases hu : h.url_slug with
        | none =>
          exact ⟨FetchErr.keyError "url_slug",
            by simp [processHit, getKey, stripAttr, hn, hb, hu, except_bind_error, except_bind_ok]⟩
        | some slug =>
          cases hcu : h.cuisine.getD ["Unknown"] with
          | nil =>
            exact ⟨FetchErr.indexError,
              by simp [processHit, getKey, stripAttr, hn, hb, hu, hcu,
                except_bind_error, except_bind_ok]⟩
          | cons c0 cs =>
            cases hg : h.geoloc with
            | none =>
              exact ⟨FetchErr.keyError "_geoloc",
                by simp [processHit, getKey, stripAttr, hn, hb, hu, hcu, hg,
                  except_bind_error, except_bind_ok]⟩
            | some g =>
              rcases hm with hm | hm | hm | hm | hm <;> simp_all

/-- A page response that lets the pagination loop proceed: not a network
error, and if its body parses with search.hits present then every hit
normalizes without an exception. -/
def pageBenign (day : String) (party_size : Nat) : Resp → Prop
  | Resp.netErr => False
  | Resp.ok _ b =>
    match b with
    | Body.badJson => True
    | Body.json d =>
      (d.hasSearch && d.hasHits) = true →
        ∀ acc, ∃ acc2, processHits day party_size d.hits acc = Except.ok acc2

/-- Under benign page responses, the pagination loop issues exactly one
request per listed page and completes. -/
theorem processPages_benign (env : Nat → Resp) (day : String) (party_size : Nat) :
    ∀ (pages : List Nat) (k : Nat) (acc : List Record),
      (∀ j, k ≤ j → pageBenign day party_size (env j)) →
      ∃ acc2, processPages env day party_size pages k acc =
        PagesOut.done (k + pages.length) acc2 := by
  intro pages
  induction pages with
  | nil => intro k acc _; exact ⟨acc, rfl⟩
  | cons p rest ih =>
    intro k acc hben
    have hb := hben k le_rfl
    cases he : env k with
    | netErr => rw [he] at hb; exact absurd hb (by simp [pageBenign])
    | ok s b =>
      cases b with
      | badJson =>
        obtain ⟨acc2, hrec⟩ := ih (k + 1) acc (fun j hj => hben j (by omega))
        refine ⟨acc2, ?_⟩
        rw [processPages, he, hrec]
        simp [List.length_cons]
        omega
      | json d =>
        rw [he] at hb
        by_cases hss : (d.hasSearch && d.hasHits) = true
        · obtain ⟨acc1, hh⟩ := hb hss acc
          obtain ⟨acc2, hrec⟩ := ih (k + 1) acc1 (fun j hj => hben j (by omega))
          refine ⟨acc2, ?_⟩
          rw [processPages, he]
          simp only [hss, if_true, hh, hrec]
          congr 1
          simp [List.length_cons]
          omega
        · obtain ⟨acc2, hrec⟩ := ih (k + 1) acc (fun j hj => hben j (by omega))
          refine ⟨acc2, ?_⟩
          rw [processPages, he]
          simp only [hss, if_false, hrec]
          simp [List.length_cons]
          omega

/-- Unfolding of one attempt whose initial request succeeds with a
well-formed body. -/
theorem runAttempts_initial_ok (env : Nat → Resp) (c day : String) (party_size : Nat)
    (fuel attempt k : Nat) (acc : List Record) (sleeps : List Nat) (d : ApiData)
    (h0 : env k = Resp.ok 200 (Body.json d)) (hm : d.hasMeta = true)
    (hs : d.hasSearch = true) :
    runAttempts env c day party_size none (fuel + 1) attempt k acc sleeps =
      if min 10 d.totalPages == 0 then
        { result := Except.ok [], calls := k + 1, sleeps := sleeps }
      else
        match processPages env day party_size (List.range' 1 (min 10 d.totalPages)) (k + 1) acc with
        | PagesOut.done k2 acc2 => { result := Except.ok acc2, calls := k2, sleeps := sleeps }
        | PagesOut.raised k2 e => { result := Except.error e, calls := k2, sleeps := sleeps }
        | PagesOut.netFail k2 acc2 =>
          runAttempts env c day party_size none fuel (attempt + 1) k2 acc2
            (sleeps ++ [delayNetErr attempt]) := by
  rw [runAttempts]
  simp [h0, hm, hs]

/-- Backbone of the backoff-monotonicity claim: whatever the retry loop
does, the slept delays form a non-decreasing list, because each branch
appends min(RETRY_DELAY) + attempt and attempt only increases. -/
theorem runAttempts_sleeps_pairwise (env : Nat → Resp) (c day : String) (party_size : Nat)
    (tt : Option String) :
    ∀ (fuel attempt k : Nat) (acc : List Record) (sleeps : List Nat),
      List.Pairwise (· ≤ ·) sleeps → (∀ x ∈ sleeps, x ≤ 2 + attempt) →
      List.Pairwise (· ≤ ·) (runAttempts env c day party_size tt fuel attempt k acc sleeps).sleeps := by
  cases tt
  all_goals
    intro fuel
    induction fuel with
    | zero => intro attempt k acc sleeps h1 _; simpa [runAttempts] using h1
    | succ fuel ih =>
      intro attempt k acc sleeps h1 h2
      have happ : List.Pairwise (· ≤ ·) (sleeps ++ [2 + attempt]) := by
        rw [List.pairwise_append]
        refine ⟨h1, List.pairwise_singleton _ _, ?_⟩
        intro a ha b hb
        simp at hb
        subst hb
        exact h2 a ha
      have hb2 : ∀ x ∈ sleeps ++ [2 + attempt], x ≤ 2 + (attempt + 1) := by
        intro x hx
        rcases List.mem_append.mp hx with hx | hx
        · exact le_trans (h2 x hx) (by omega)
        · simp at hx; omega
      rw [runAttempts]
      repeat' split
      all_goals
        first
        | simpa using h1
        | (rw [delayNetErr_eq]; exact ih _ _ _ _ happ hb2)
        | (rw [delay502_eq]; exact ih _ _ _ _ happ hb2)
        | (simp only []
           repeat' split
           all_goals
             first
             | simpa using h1
             | (rw [delayNetErr_eq]; exact ih _ _ _ _ happ hb2))

/-- Per-category environments where the Sushi category raises mid-page and
every other category legitimately reports no availability. -/
def c3envs : String → Nat → Resp := fun c =>
  if c == "Sushi" then badPage2Env namelessHit else zeroEnv

/-- Every request answers HTTP 502 with a non-JSON body. -/
def all502Env : Nat → Resp := fun _ => Resp.ok 502 Body.badJson

/-- The initial response reports 23 pages; every page response is benign
(non-JSON body, so each page is skipped after its request). -/
def manyPagesEnv : Nat → Resp := fun k =>
  if k == 0 then initResp 23 else Resp.ok 200 Body.badJson

/-- The ApiData carried by initResp 2. -/
def dInit2 : ApiData :=
  { hasMeta := true, totalPages := 2, hasSearch := true, hasHits := false, hits := [] }

/-- The ApiData carried by initResp 0. -/
def dInit0 : ApiData :=
  { hasMeta := true, totalPages := 0, hasSearch := true, hasHits := false, hits := [] }

/-- The ApiData carried by initResp 23. -/
def dInit23 : ApiData :=
  { hasMeta := true, totalPages := 23, hasSearch := true, hasHits := false, hits := [] }

/-- One pagination-loop step against a well-formed page response. -/
theorem processPages_pageResp_step (env : Nat → Resp) (day : String) (party_size : Nat)
    (p : Nat) (rest : List Nat) (k : Nat) (acc : List Record) (hs : List Hit)
    (henv : env k = pageResp hs) :
    processPages env day party_size (p :: rest) k acc =
      match processHits day party_size hs acc with
      | Except.ok acc2 => processPages env day party_size rest (k + 1) acc2
      | Except.error e => PagesOut.raised (k + 1) e := by
  rw [processPages, henv]
  rfl

/-! ### Claim theorems -/

/-- C1.  Within one aggregated result set the reservation-link values are
unique; for every link surfacing in the merged stream the aggregate keeps
exactly one record for it, and each surviving record is the first record
with its link in merge order (drop_duplicates keep-first). -/
theorem c1_reservation_links_unique (envs : String → Nat → Resp) (order : List String)
    (day : String) (party_size : Nat) (tt : Option String) (rs : List Record)
    (hok : (fetch_available_reservations envs order day party_size tt).result = Except.ok rs) :
    ((rs.map Record.reservationLink).Nodup) ∧
    (∀ l, l ∈ (mergedRecords envs order day party_size tt).map Record.reservationLink →
      (rs.filter (fun r => r.reservationLink == l)).length = 1) ∧
    (∀ r ∈ rs, (mergedRecords envs order day party_size tt).find?
      (fun x => x.reservationLink == r.reservationLink) = some r) := by
  have hres := fetch_available_result envs order day party_size tt
  rw [hok] at hres
  by_cases he : (mergedRecords envs order day party_size tt).isEmpty
  · rw [if_pos he] at hres
    exact absurd hres (by simp)
  · rw [if_neg he] at hres
    have hrs : rs = drop_duplicates_link (mergedRecords envs order day party_size tt) :=
      Except.ok.inj hres
    subst hrs
    refine ⟨dedupAux_nodup _ _, ?_, ?_⟩
    · intro l hl
      exact dedupAux_filter_len_one _ [] l (by simp) hl
    · intro r hr
      exact dedupAux_first_wins _ [] r hr

/-- C1 witness: Italian and Mediterranean both surface the carbone venue
(same link); the aggregate keeps exactly the first record. -/
theorem c1_witness :
    (([carboneRecord].map Record.reservationLink).Nodup) ∧
    (∀ l, l ∈ (mergedRecords dedupEnvs ["Italian", "Mediterranean"] "2024-06-01" 2 none).map
        Record.reservationLink →
      (([carboneRecord]).filter (fun r => r.reservationLink == l)).length = 1) ∧
    (∀ r ∈ [carboneRecord],
      (mergedRecords dedupEnvs ["Italian", "Mediterranean"] "2024-06-01" 2 none).find?
        (fun x => x.reservationLink == r.reservationLink) = some r) :=
  c1_reservation_links_unique dedupEnvs ["Italian", "Mediterranean"] "2024-06-01" 2 none
    [carboneRecord] (by decide)

/-- C2 counterexample.  On the malformed target time "6pm" the coordinator
does not return an InvalidTimeFormat signal: it fails with the generic
pandas KeyError raised by drop_duplicates on the empty frame, an outcome
identical to a well-formed request for which every category legitimately
reports no availability. -/
theorem c2_counterexample :
    (fetch_available_reservations (fun _ => zeroEnv) CUISINES "2024-06-01" 2
        (some "6pm")).result = Except.error (CoordErr.keyError "Reservation Link") ∧
    (fetch_available_reservations (fun _ => zeroEnv) CUISINES "2024-06-01" 2
        (some "6pm")).result =
      (fetch_available_reservations (fun _ => zeroEnv) CUISINES "2024-06-01" 2 none).result :=
  ⟨rfl, rfl⟩

/-- C2 as amended.  On a non-empty target time rejected by strptime, each
category worker independently returns an empty list with zero HTTP calls
(so the whole request issues zero network calls), and the coordinator ends
with the generic dedup KeyError rather than an InvalidTimeFormat signal. -/
theorem c2_invalid_time_behavior (env : Nat → Resp) (envs : String → Nat → Resp)
    (order : List String) (cuisine day : String) (party_size : Nat) (t : String)
    (h1 : t.isEmpty = false) (h2 : parseTime12 t = none) :
    fetch_cuisine_reservations env cuisine day party_size (some t) =
      { result := Except.ok [], calls := 0, sleeps := [] } ∧
    (fetch_available_reservations envs order day party_size (some t)).calls = 0 ∧
    (fetch_available_reservations envs order day party_size (some t)).result =
      Except.error (CoordErr.keyError "Reservation Link") := by
  refine ⟨worker_invalid_time env cuisine day party_size t h1 h2, ?_, ?_⟩
  · unfold fetch_available_reservations
    rw [coordLoop_invalid_time envs day party_size t h1 h2 order [] 0]
    rfl
  · unfold fetch_available_reservations
    rw [coordLoop_invalid_time envs day party_size t h1 h2 order [] 0]
    rfl

/-- C2 witness at the concrete malformed time "6pm". -/
theorem c2_witness :
    "6pm".isEmpty = false ∧ parseTime12 "6pm" = none ∧
    fetch_cuisine_reservations zeroEnv "Sushi" "2024-06-01" 2 (some "6pm") =
      { result := Except.ok [], calls := 0, sleeps := [] } ∧
    (fetch_available_reservations (fun _ => zeroEnv) CUISINES "2024-06-01" 2
        (some "6pm")).calls = 0 ∧
    (fetch_available_reservations (fun _ => zeroEnv) CUISINES "2024-06-01" 2
        (some "6pm")).result = Except.error (CoordErr.keyError "Reservation Link") := by
  have h := c2_invalid_time_behavior zeroEnv (fun _ => zeroEnv) CUISINES "Sushi"
    "2024-06-01" 2 "6pm" rfl rfl
  exact ⟨rfl, rfl, h.1, h.2.1, h.2.2⟩

/-- C3 counterexample.  When all 15 categories legitimately report zero
pages, the coordinator does not return successfully: the final
drop_duplicates call raises a KeyError (the empty frame has no
Reservation Link column), refuting the never-raises claim; nor does any
returned value carry a failure manifest or an explicit empty status. -/
theorem c3_counterexample :
    (fetch_available_reservations (fun _ => zeroEnv) CUISINES "2024-06-01" 2 none).result =
      Except.error (CoordErr.keyError "Reservation Link") := rfl

/-- C3 as amended.  Per-category worker exceptions are swallowed: a
category whose worker raises yields a coordinator result identical to that
category having legitimately returned nothing (so no failure manifest is
observable); and whenever the merged record list is empty the coordinator
raises the dedup KeyError instead of returning an explicit empty-result
status. -/
theorem c3_coordinator_error_handling (envs : String → Nat → Resp) (order : List String)
    (day : String) (party_size : Nat) (tt : Option String) (c : String) (e : FetchErr)
    (herr : (fetch_cuisine_reservations (envs c) c day party_size tt).result =
      Except.error e) :
    (fetch_available_reservations envs order day party_size tt).result =
      (fetch_available_reservations (Function.update envs c zeroEnv) order day
        party_size tt).result ∧
    (mergedRecords envs order day party_size tt = [] →
      (fetch_available_reservations envs order day party_size tt).result =
        Except.error (CoordErr.keyError "Reservation Link")) := by
  constructor
  · rw [fetch_available_result, fetch_available_result]
    have hm := coordLoop_update_raise envs day party_size tt c e herr order [] 0 0
    unfold mergedRecords
    rw [hm]
  · intro hempty
    rw [fetch_available_result, hempty]
    rfl

/-- C3 witness: the Sushi category raises on a malformed hit; the outcome
equals the all-empty outcome and the empty merge yields the KeyError. -/
theorem c3_witness :
    ((fetch_available_reservations c3envs CUISINES "2024-06-01" 2 none).result =
      (fetch_available_reservations (Function.update c3envs "Sushi" zeroEnv) CUISINES
        "2024-06-01" 2 none).result) ∧
    (mergedRecords c3envs CUISINES "2024-06-01" 2 none = [] →
      (fetch_available_reservations c3envs CUISINES "2024-06-01" 2 none).result =
        Except.error (CoordErr.keyError "Reservation Link")) :=
  c3_coordinator_error_handling c3envs CUISINES "2024-06-01" 2 none "Sushi"
    (FetchErr.keyError "name") rfl

/-- C4 counterexample.  Two pages are reported and the page-2 request
answers HTTP 502: the worker performs no retry at all — it finishes after
3 calls with no backoff sleep and no further attempt, merely skipping the
page because the 502 body fails JSON decoding.  Under the claimed policy a
502 on page 2 would be retried with backoff like the initial request. -/
theorem c4_counterexample :
    fetch_cuisine_reservations page502Env "Sushi" "2024-06-01" 2 none =
      { result := Except.ok [], calls := 3, sleeps := [] } := rfl

/-- C4 as amended.  In the pagination loop the status code is never
inspected: a 502 page response whose body is not JSON is simply skipped,
and a network-level error anywhere surfaces as netFail, which the retry
loop handles by sleeping the backoff delay and restarting the whole fetch
(from page 1) on the next attempt — only the initial request has a 502
check. -/
theorem c4_retry_policy_scope :
    (∀ (env : Nat → Resp) (day : String) (party_size p : Nat) (rest : List Nat)
        (k : Nat) (acc : List Record), env k = Resp.ok 502 Body.badJson →
      processPages env day party_size (p :: rest) k acc =
        processPages env day party_size rest (k + 1) acc) ∧
    (∀ (env : Nat → Resp) (day : String) (party_size p : Nat) (rest : List Nat)
        (k : Nat) (acc : List Record), env k = Resp.netErr →
      processPages env day party_size (p :: rest) k acc = PagesOut.netFail (k + 1) acc) ∧
    (∀ (env : Nat → Resp) (c day : String) (party_size fuel attempt k : Nat)
        (acc : List Record) (sleeps : List Nat), env k = Resp.netErr →
      runAttempts env c day party_size none (fuel + 1) attempt k acc sleeps =
        runAttempts env c day party_size none fuel (attempt + 1) (k + 1) acc
          (sleeps ++ [delayNetErr attempt])) := by
  refine ⟨?_, ?_, ?_⟩
  · intro env day party_size p rest k acc h
    rw [processPages, h]
  · intro env day party_size p rest k acc h
    rw [processPages, h]
  · intro env c day party_size fuel attempt k acc sleeps h
    rw [runAttempts, h]

/-- C4 witness instantiating each conjunct at a concrete environment. -/
theorem c4_witness :
    (processPages all502Env "2024-06-01" 2 [1] 0 [] =
      processPages all502Env "2024-06-01" 2 [] 1 []) ∧
    (processPages netErrEnv "2024-06-01" 2 [1] 0 [] = PagesOut.netFail 1 []) ∧
    (runAttempts netErrEnv "Sushi" "2024-06-01" 2 none 3 1 0 [] [] =
      runAttempts netErrEnv "Sushi" "2024-06-01" 2 none 2 2 1 [] ([] ++ [delayNetErr 1])) :=
  ⟨c4_retry_policy_scope.1 all502Env "2024-06-01" 2 1 [] 0 [] rfl,
   c4_retry_policy_scope.2.1 netErrEnv "2024-06-01" 2 1 [] 0 [] rfl,
   c4_retry_policy_scope.2.2 netErrEnv "Sushi" "2024-06-01" 2 2 1 0 [] [] rfl⟩

/-- C5 counterexample.  After all three attempts fail at the network level
the worker returns a plain empty list — exactly the value returned for a
legitimate zero-results search — so no distinguishable ExhaustedRetries
failure exists.  The call and sleep counts confirm the retries really were
exhausted. -/
theorem c5_counterexample :
    (fetch_cuisine_reservations netErrEnv "Sushi" "2024-06-01" 2 none).result =
      (fetch_cuisine_reservations zeroEnv "Sushi" "2024-06-01" 2 none).result ∧
    (fetch_cuisine_reservations netErrEnv "Sushi" "2024-06-01" 2 none).calls = 3 ∧
    (fetch_cuisine_reservations netErrEnv "Sushi" "2024-06-01" 2 none).sleeps = [3, 4, 5] :=
  ⟨rfl, rfl, rfl⟩

/-- C5 as amended.  A worker whose every request fails transiently uses
its three attempts (sleeping the three backoff delays) and then returns an
empty list indistinguishable from the zero-availability success value. -/
theorem c5_exhausted_retries_plain_empty (env : Nat → Resp) (c day : String)
    (party_size : Nat) (h : ∀ k, env k = Resp.netErr) :
    fetch_cuisine_reservations env c day party_size none =
      { result := Except.ok [], calls := 3,
        sleeps := [delayNetErr 1, delayNetErr 2, delayNetErr 3] } ∧
    (fetch_cuisine_reservations env c day party_size none).result =
      (fetch_cuisine_reservations zeroEnv c day party_size none).result := by
  have h1 : fetch_cuisine_reservations env c day party_size none =
      { result := Except.ok [], calls := 3,
        sleeps := [delayNetErr 1, delayNetErr 2, delayNetErr 3] } := by
    show runAttempts env c day party_size none 3 1 0 [] [] = _
    rw [runAttempts, h 0, runAttempts, h 1, runAttempts, h 2, runAttempts]
    rfl
  refine ⟨h1, ?_⟩
  rw [h1, worker_zeroEnv_result]

/-- C5 witness at the all-network-errors environment. -/
theorem c5_witness :
    fetch_cuisine_reservations netErrEnv "Sushi" "2024-06-01" 2 none =
      { result := Except.ok [], calls := 3,
        sleeps := [delayNetErr 1, delayNetErr 2, delayNetErr 3] } ∧
    (fetch_cuisine_reservations netErrEnv "Sushi" "2024-06-01" 2 none).result =
      (fetch_cuisine_reservations zeroEnv "Sushi" "2024-06-01" 2 none).result :=
  c5_exhausted_retries_plain_empty netErrEnv "Sushi" "2024-06-01" 2 (fun _ => rfl)

/-- C6.  The backoff delay min(RETRY_DELAY) + attempt is monotonically
non-decreasing in the attempt number, in both the 502 branch and the
network-error branch, and consequently the list of delays any worker run
actually sleeps is non-decreasing. -/
theorem c6_backoff_monotone (env : Nat → Resp) (cuisine day : String) (party_size : Nat)
    (tt : Option String) (m n : Nat) (hmn : m ≤ n) :
    delay502 m ≤ delay502 n ∧ delayNetErr m ≤ delayNetErr n ∧
    List.Pairwise (· ≤ ·)
      (fetch_cuisine_reservations env cuisine day party_size tt).sleeps := by
  refine ⟨?_, ?_, ?_⟩
  · rw [delay502_eq, delay502_eq]; omega
  · rw [delayNetErr_eq, delayNetErr_eq]; omega
  · exact runAttempts_sleeps_pairwise env cuisine day party_size tt MAX_RETRIES 1 0 [] []
      List.Pairwise.nil (by intro x hx; simp at hx)

/-- C6 witness at attempts 1 ≤ 2 and the all-network-errors run (whose
sleep list is [3, 4, 5]). -/
theorem c6_witness :
    delay502 1 ≤ delay502 2 ∧ delayNetErr 1 ≤ delayNetErr 2 ∧
    List.Pairwise (· ≤ ·)
      (fetch_cuisine_reservations netErrEnv "Sushi" "2024-06-01" 2 none).sleeps :=
  c6_backoff_monotone netErrEnv "Sushi" "2024-06-01" 2 none 1 2 (by decide)

/-- C7 counterexample.  Five pages are reported, but the first page
contains a hit missing its name key: the uncaught KeyError aborts the
pagination loop after a single page-fetch request (2 calls in total), so
the number of page requests is 1, not min(10, 5) = 5. -/
theorem c7_counterexample :
    fetch_cuisine_reservations (abortEnv namelessHit) "Sushi" "2024-06-01" 2 none =
      { result := Except.error (FetchErr.keyError "name"), calls := 2, sleeps := [] } ∧
    (fetch_cuisine_reservations (abortEnv namelessHit) "Sushi" "2024-06-01" 2
      none).calls ≠ 1 + min 10 5 :=
  ⟨rfl, by decide⟩

/-- C7 as amended.  When the initial request succeeds with a well-formed
body and every page response is benign (no network error; any parsed hits
normalize without exception), the worker issues exactly min(10, reported
total_pages) page-fetch requests — 1 + min(10, reported) HTTP calls in
total, hence at most 11 — however many pages the upstream reports. -/
theorem c7_page_cap (env : Nat → Resp) (c day : String) (party_size : Nat) (d : ApiData)
    (h0 : env 0 = Resp.ok 200 (Body.json d)) (hm : d.hasMeta = true)
    (hs : d.hasSearch = true)
    (hben : ∀ j, 1 ≤ j → pageBenign day party_size (env j)) :
    (fetch_cuisine_reservations env c day party_size none).calls =
      1 + min 10 d.totalPages ∧
    (fetch_cuisine_reservations env c day party_size none).calls ≤ 11 := by
  have hmain : (fetch_cuisine_reservations env c day party_size none).calls =
      1 + min 10 d.totalPages := by
    show (runAttempts env c day party_size none 3 1 0 [] []).calls = _
    rw [runAttempts_initial_ok env c day party_size 2 1 0 [] [] d h0 hm hs]
    by_cases hz : (min 10 d.totalPages == 0) = true
    · rw [if_pos hz]
      have : min 10 d.totalPages = 0 := by simpa using hz
      simp [this]
    · rw [if_neg hz]
      obtain ⟨acc2, hdone⟩ := processPages_benign env day party_size
        (List.range' 1 (min 10 d.totalPages)) 1 [] (fun j hj => hben j hj)
      rw [hdone]
      simp [List.length_range']
  refine ⟨hmain, ?_⟩
  rw [hmain]
  have : min 10 d.totalPages ≤ 10 := Nat.min_le_left _ _
  omega

/-- C7 witness: 23 reported pages, capped at 10 page requests (11 calls). -/
theorem c7_witness :
    (fetch_cuisine_reservations manyPagesEnv "Sushi" "2024-06-01" 2 none).calls =
      1 + min 10 23 ∧
    (fetch_cuisine_reservations manyPagesEnv "Sushi" "2024-06-01" 2 none).calls ≤ 11 :=
  c7_page_cap manyPagesEnv "Sushi" "2024-06-01" 2 dInit23 rfl rfl rfl
    (by
      intro j hj
      have hne : (j == 0) = false := by simp; omega
      simp [manyPagesEnv, hne, pageBenign])

/-- C8 counterexample.  The zero-pages return value is the same bare empty
list the worker returns for a non-retryable HTTP failure (status 500):
there is no Complete status distinct from failure. -/
theorem c8_counterexample :
    fetch_cuisine_reservations zeroEnv "Sushi" "2024-06-01" 2 none =
      { result := Except.ok [], calls := 1, sleeps := [] } ∧
    (fetch_cuisine_reservations err500Env "Sushi" "2024-06-01" 2 none).result =
      (fetch_cuisine_reservations zeroEnv "Sushi" "2024-06-01" 2 none).result :=
  ⟨rfl, rfl⟩

/-- C8 as amended.  A category whose initial response reports
total_pages = 0 issues no page-fetch beyond the initial request (exactly
one HTTP call) and returns zero records — but as a plain empty list, not a
distinguishable Complete value. -/
theorem c8_zero_pages (env : Nat → Resp) (c day : String) (party_size : Nat)
    (d : ApiData) (h0 : env 0 = Resp.ok 200 (Body.json d)) (hm : d.hasMeta = true)
    (hs : d.hasSearch = true) (ht : d.totalPages = 0) :
    fetch_cuisine_reservations env c day party_size none =
      { result := Except.ok [], calls := 1, sleeps := [] } := by
  show runAttempts env c day party_size none 3 1 0 [] [] = _
  rw [runAttempts_initial_ok env c day party_size 2 1 0 [] [] d h0 hm hs]
  simp [ht]

/-- C8 witness at the all-zero-pages environment. -/
theorem c8_witness :
    fetch_cuisine_reservations zeroEnv "Sushi" "2024-06-01" 2 none =
      { result := Except.ok [], calls := 1, sleeps := [] } :=
  c8_zero_pages zeroEnv "Sushi" "2024-06-01" 2 dInit0 rfl rfl rfl rfl

/-- C9.  Any hit lacking name, neighborhood, url_slug or _geoloc (or with
a non-string neighborhood) makes the extraction raise; placed on page 2
after a successful page 1, the whole worker run raises, and the
coordinator then discards the category's entire contribution — including
the record already built from page 1 — keeping only the other category. -/
theorem c9_malformed_hit_discards_category (h : Hit) (hm : missingRequired h) :
    (∀ day party_size, ∃ e, processHit day party_size h = Except.error e) ∧
    (∃ e, (fetch_cuisine_reservations (badPage2Env h) "Sushi" "2024-06-01" 2
      none).result = Except.error e) ∧
    (mergedRecords (raiseEnvs h) ["Sushi", "Thai"] "2024-06-01" 2 none =
      [somtumRecord]) := by
  obtain ⟨e, he⟩ := processHit_missing h hm "2024-06-01" 2
  have hh : processHits "2024-06-01" 2 [h] [carboneRecord] = Except.error e := by
    rw [processHits, he]
  have hceq : processHits "2024-06-01" 2 [carboneHit] [] = Except.ok [carboneRecord] := by
    decide
  have hstep1 : processPages (badPage2Env h) "2024-06-01" 2 [1, 2] 1 [] =
      processPages (badPage2Env h) "2024-06-01" 2 [2] 2 [carboneRecord] := by
    rw [processPages_pageResp_step (badPage2Env h) "2024-06-01" 2 1 [2] 1 [] [carboneHit]
      rfl, hceq]
  have hstep2 : processPages (badPage2Env h) "2024-06-01" 2 [2] 2 [carboneRecord] =
      PagesOut.raised 3 e := by
    rw [processPages_pageResp_step (badPage2Env h) "2024-06-01" 2 2 [] 2 [carboneRecord] [h]
      rfl, hh]
  have hpages : processPages (badPage2Env h) "2024-06-01" 2
      (List.range' 1 (min 10 dInit2.totalPages)) 1 [] = PagesOut.raised 3 e := by
    show processPages (badPage2Env h) "2024-06-01" 2 [1, 2] 1 [] = _
    rw [hstep1, hstep2]
  have hworker : fetch_cuisine_reservations (badPage2Env h) "Sushi" "2024-06-01" 2 none =
      { result := Except.error e, calls := 3, sleeps := [] } := by
    show runAttempts (badPage2Env h) "Sushi" "2024-06-01" 2 none 3 1 0 [] [] = _
    rw [runAttempts_initial_ok (badPage2Env h) "Sushi" "2024-06-01" 2 2 1 0 [] []
      dInit2 rfl rfl rfl]
    rw [hpages]
    rfl
  refine ⟨fun day party_size => processHit_missing h hm day party_size, ⟨e, by rw [hworker]⟩, ?_⟩
  have hthai : fetch_cuisine_reservations thaiEnv "Thai" "2024-06-01" 2 none =
      { result := Except.ok [somtumRecord], calls := 2, sleeps := [] } := by decide
  show (coordLoop (raiseEnvs h) "2024-06-01" 2 none ["Sushi", "Thai"] [] 0).1 =
    [somtumRecord]
  rw [coordLoop]
  simp only [show raiseEnvs h "Sushi" = badPage2Env h from rfl, hworker]
  rw [coordLoop]
  simp only [show raiseEnvs h "Thai" = thaiEnv from rfl, hthai]
  rfl

/-- C9 witness at a concrete hit missing its name key. -/
theorem c9_witness :
    (∀ day party_size, ∃ e, processHit day party_size namelessHit = Except.error e) ∧
    (∃ e, (fetch_cuisine_reservations (badPage2Env namelessHit) "Sushi" "2024-06-01" 2
      none).result = Except.error e) ∧
    (mergedRecords (raiseEnvs namelessHit) ["Sushi", "Thai"] "2024-06-01" 2 none =
      [somtumRecord]) :=
  c9_malformed_hit_discards_category namelessHit (Or.inl rfl)

/-- C10.  A network error on the page-2 request after page 1 delivered a
record makes the retry restart from page 1 without clearing the
accumulator: the returned list contains the same record twice. -/
theorem c10_retry_duplicates :
    fetch_cuisine_reservations dupEnv "Sushi" "2024-06-01" 2 none =
      { result := Except.ok [carboneRecord, carboneRecord], calls := 6,
        sleeps := [delayNetErr 1] } ∧
    ¬ ([carboneRecord, carboneRecord] : List Record).Nodup :=
  ⟨by decide, by decide⟩

end ReservationStation
